import Mathlib

/-!
Verification of the C-execution bridge of `loopy/target/c/c_execution.py`.

The file embeds, shallowly and executably:
* the `CCompiler` / `CppCompiler` toolchain configuration and its
  `compile_args` / `link_args` argv builders;
* the `CompiledCKernel` bridge: the declaration visitation that extracts
  `_arg_info`, the `void`-only return-type gate, the fixed ctypes
  `argtypes`, and the argument marshalling of `__call__` (including the
  relevant CPython `ctypes` instantiation semantics);
* the memoized `kernel_info` stage of `CKernelExecutor`.

Theorems after the definitions check the specified behavior of each of
these pieces against the embedded code.
-/

namespace CExec

/-- Semantic numeric types appearing as `cgen.POD` dtypes in kernel
declarations. -/
inductive ScalarDType
  | float32
  | float64
  | int32
  | int64
  | uint32
  deriving DecidableEq, Repr

/-- Modelled from the spec: the active target's dtype registry
(`target.get_dtype_registry().wrapped_registry.dtype_to_ctype`, which
lives outside this source slice) maps each semantic numeric type to a C
type name, the generic unsigned category being named `unsigned`. -/
def dtype_to_ctype_name : ScalarDType → String
  | .float32 => "float"
  | .float64 => "double"
  | .int32 => "int"
  | .int64 => "long"
  | .uint32 => "unsigned"

/-- A ctypes type: a scalar such as `c_float`, or `POINTER(base)`. -/
inductive CTypesType
  | scalar (name : String)
  | pointer (base : CTypesType)
  deriving DecidableEq, Repr

/-- `CompiledCKernel._dtype_to_ctype`: look the dtype up in the registry,
rename `unsigned` to `uint`, resolve `ctypes.c_<typename>`, and wrap the
base type in `POINTER` when the parameter is a pointer. -/
def _dtype_to_ctype (dtype : ScalarDType) (pointer : Bool) : CTypesType :=
  let typename := dtype_to_ctype_name dtype
  let typename := if typename = "unsigned" then "uint" else typename
  let basetype := CTypesType.scalar ("c_" ++ typename)
  if pointer then .pointer basetype else basetype

/-- A `cgen` declarator as it occurs among a function declaration's
`arg_decls`.  `const` and `restrictPointer` are nested declarators
wrapping an arbitrary inner declarator (their `subdecl`); `pod` is the
leaf carrying the `dtype` and `name` attributes; `otherDecl` stands for
every further `cgen` declarator kind (a plain pointer, an array
declarator, ...), which has a `name` but no `dtype`. -/
inductive CDeclArg
  | pod (dtype : ScalarDType) (name : String)
  | restrictPointer (subdecl : CDeclArg)
  | const (subdecl : CDeclArg)
  | otherDecl (name : String)
  deriving DecidableEq, Repr

/-- Construction-time failures of `CompiledCKernel.__init__`:
`ValueError('unhandled type for arg %r')`, a Python `AttributeError`
raised by reading a missing declarator attribute, and
`ValueError('Unhandled restype %r')`. -/
inductive BridgeError
  | unhandledArgValueError (arg : CDeclArg)
  | attributeError (attr : String)
  | unhandledRestypeValueError (restype : String)
  deriving DecidableEq, Repr

/-- The `subdecl` attribute: in `cgen` only nested declarators (`Const`,
`RestrictPointer`, ...) carry a `subdecl`. -/
def subdecl? : CDeclArg → Option CDeclArg
  | .restrictPointer s => some s
  | .const s => some s
  | _ => none

/-- The `dtype` (and `name`) attributes of a `POD` leaf: in `cgen` only
`POD` carries `dtype` (a `NestedDeclarator` delegates `name`, but has no
`dtype`), so reading `.dtype` from any other declarator raises
`AttributeError`. -/
def podDtypeName? : CDeclArg → Option (ScalarDType × String)
  | .pod d n => some (d, n)
  | _ => none

/-- `CompiledCKernel._visit_pointer`: read `node.subdecl`, treat it as a
`POD` (`pod.name`, `pod.dtype`), and record a pointer argument; a
non-`POD` subdecl has no `dtype`, which raises `AttributeError`. -/
def _visit_pointer (node : CDeclArg) : Except BridgeError (String × CTypesType) :=
  match subdecl? node with
  | none => .error (.attributeError "subdecl")
  | some pod =>
    match podDtypeName? pod with
    | none => .error (.attributeError "dtype")
    | some (dtype, name) => .ok (name, _dtype_to_ctype dtype true)

/-- `CompiledCKernel._visit_const`: when the const's `subdecl` is a
`RestrictPointer`, visit that subdecl as a pointer; otherwise treat the
`subdecl` as a `POD` and record a value argument (`AttributeError` when
it is not a `POD`). -/
def _visit_const (node : CDeclArg) : Except BridgeError (String × CTypesType) :=
  match subdecl? node with
  | none => .error (.attributeError "subdecl")
  | some sub =>
    match sub with
    | .restrictPointer _ => _visit_pointer sub
    | s =>
      match podDtypeName? s with
      | none => .error (.attributeError "dtype")
      | some (dtype, name) => .ok (name, _dtype_to_ctype dtype false)

/-- One iteration of the loop in `CompiledCKernel._visit_func_decl`:
dispatch on the class of the argument declarator, raising
`ValueError('unhandled type for arg %r')` for anything that is neither
`Const` nor `RestrictPointer`. -/
def classifyArg (arg : CDeclArg) : Except BridgeError (String × CTypesType) :=
  match arg with
  | .const _ => _visit_const arg
  | .restrictPointer _ => _visit_pointer arg
  | a => .error (.unhandledArgValueError a)

/-- `CompiledCKernel._visit_func_decl`: visit the argument declarators in
order, accumulating `_arg_info`; the loop propagates the first failure. -/
def _visit_func_decl : List CDeclArg → Except BridgeError (List (String × CTypesType))
  | [] => .ok []
  | arg :: rest =>
    match classifyArg arg with
    | .error e => .error e
    | .ok info =>
      match _visit_func_decl rest with
      | .error e => .error e
      | .ok infos => .ok (info :: infos)

/-- The extracted first function declaration of the generated code: the
return-type name `func_decl.subdecl.typename` and the ordered argument
declarators `func_decl.arg_decls`. -/
structure CFuncDecl where
  typename : String
  arg_decls : List CDeclArg
  deriving DecidableEq, Repr

/-- The constructed bridge: kernel name, the extracted `_arg_info`, and
the `restype` (ctypes `None` modelled as `none`) and `argtypes` fixed on
the bound native function at construction. -/
structure CompiledCKernel where
  name : String
  arg_info : List (String × CTypesType)
  restype : Option CTypesType
  argtypes : List CTypesType
  deriving DecidableEq, Repr

/-- `CompiledCKernel.__init__` after the toolchain build step: extract
`_arg_info` by visiting the declaration, accept only the `void` return
type, and fix `restype` and `argtypes` on the bound function. -/
def CompiledCKernel.init (name : String) (func_decl : CFuncDecl) :
    Except BridgeError CompiledCKernel :=
  match _visit_func_decl func_decl.arg_decls with
  | .error e => .error e
  | .ok arg_info =>
    if func_decl.typename = "void" then
      .ok { name := name, arg_info := arg_info, restype := none,
            argtypes := arg_info.map Prod.snd }
    else
      .error (.unhandledRestypeValueError func_decl.typename)

/-- A host-side positional argument of `__call__`: a numpy array (which
has a `ctypes` attribute, an element dtype and a `size`), a Python int,
or a Python float (value carried as a rational). -/
inductive PyArg
  | ndarray (dtype : ScalarDType) (size : Nat)
  | pyInt (n : Int)
  | pyFloat (x : ℚ)
  deriving DecidableEq, Repr

/-- A plain Python number handed to a ctypes type constructor. -/
inductive PyNum
  | int (n : Int)
  | float (x : ℚ)
  deriving DecidableEq, Repr

/-- A call-time marshalling failure (a Python `TypeError` raised by
ctypes). -/
inductive MarshalError
  | typeError (msg : String)
  deriving DecidableEq, Repr

/-- A marshalled native argument: a constructed ctypes scalar instance,
or the pointer view into an array's storage that
`arg.ctypes.data_as(arg_t)` yields. -/
inductive NativeArg
  | scalar (ctypeName : String) (value : ℚ)
  | pointerView (target : CTypesType) (srcDtype : ScalarDType) (size : Nat)
  deriving DecidableEq, Repr

/-- The floating ctypes scalar names; these accept a Python float on
instantiation, while the integer ctypes accept only a Python int. -/
def floatCtype (name : String) : Bool :=
  name = "c_float" || name = "c_double"

/-- `arg_t(x)` for a plain Python number `x`, per CPython `ctypes`
semantics: an integer scalar type raises `TypeError` on a float, a
floating scalar type accepts int or float, and a `POINTER` type raises
`TypeError` because it is constructible only from an instance of its
base type, never from a plain Python number. -/
def ctypesInstantiate : CTypesType → PyNum → Except MarshalError NativeArg
  | .pointer _, _ => .error (.typeError "expected instance of base type")
  | .scalar name, .int n => .ok (.scalar name (n : ℚ))
  | .scalar name, .float x =>
    if floatCtype name then .ok (.scalar name x)
    else .error (.typeError "int expected instead of float")

/-- `arg.ctypes.data_as(arg_t)` (numpy delegating to `ctypes.cast`):
reinterpret the array's data pointer as `arg_t`; `cast` demands a
pointer target type and raises `TypeError` otherwise. -/
def data_as (dtype : ScalarDType) (size : Nat) :
    CTypesType → Except MarshalError NativeArg
  | .pointer b => .ok (.pointerView (.pointer b) dtype size)
  | .scalar _ => .error (.typeError "cast argument 2 must be a pointer type")

/-- The body of the loop of `CompiledCKernel.__call__` for one
`(arg, arg_t)` pair: an array of size zero is replaced by `arg_t(0.0)`,
a non-empty array by `arg.ctypes.data_as(arg_t)`, and a plain scalar by
`arg_t(arg)`. -/
def marshalOne (arg : PyArg) (arg_t : CTypesType) : Except MarshalError NativeArg :=
  match arg with
  | .ndarray dtype size =>
    if size = 0 then ctypesInstantiate arg_t (.float 0)
    else data_as dtype size arg_t
  | .pyInt n => ctypesInstantiate arg_t (.int n)
  | .pyFloat x => ctypesInstantiate arg_t (.float x)

/-- The loop of `__call__` over `zip(args, self._fn.argtypes)`: marshal
pairwise, truncating at the shorter list exactly as `zip` does. -/
def marshalArgs : List PyArg → List CTypesType → Except MarshalError (List NativeArg)
  | arg :: args, t :: ts =>
    match marshalOne arg t with
    | .error e => .error e
    | .ok v =>
      match marshalArgs args ts with
      | .error e => .error e
      | .ok vs => .ok (v :: vs)
  | _, _ => .ok []

/-- `CompiledCKernel.__call__`: marshal the positional arguments against
the `argtypes` fixed at construction; on success the returned list is
the exact native argument list passed to the bound function `self._fn`
(the call itself produces no value).  The method assigns no attribute of
the bridge, so the bridge is taken immutably. -/
def CompiledCKernel.call (k : CompiledCKernel) (args : List PyArg) :
    Except MarshalError (List NativeArg) :=
  marshalArgs args k.argtypes

/-- The class attributes of a compiler profile (`CCompiler` or its
`CppCompiler` subclass). -/
structure CompilerDefaults where
  source_suffix : String
  default_exe : String
  default_compile_flags : List String
  default_link_flags : List String
  deriving DecidableEq, Repr

/-- `CCompiler` class attributes: gcc with the C99/O3 profile. -/
def ccompilerDefaults : CompilerDefaults :=
  { source_suffix := "c", default_exe := "gcc",
    default_compile_flags := ["-std=c99", "-g", "-O3", "-fPIC"],
    default_link_flags := ["-shared"] }

/-- `CppCompiler` class attributes: g++ with debug/O3 compile flags and
the inherited link flags. -/
def cppCompilerDefaults : CompilerDefaults :=
  { source_suffix := "cpp", default_exe := "g++",
    default_compile_flags := ["-g", "-O3"],
    default_link_flags := ["-shared"] }

/-- The configured state of a `CCompiler` instance.  The scratch
`tempdir` created by `tempfile.mkdtemp` is an external side effect of
construction and takes no part in the argv builders. -/
structure CCompiler where
  exe : String
  cflags : List String
  ldflags : List String
  deriving DecidableEq, Repr

/-- `CCompiler.__init__`: `cc if cc else default_exe` and
`flags or default_flags`, with Python truthiness (`None`, the empty
string and the empty list are falsy and fall back to the class
defaults). -/
def CCompiler.init (defaults : CompilerDefaults) (cc : Option String)
    (cflags ldflags : Option (List String)) : CCompiler :=
  { exe := match cc with
      | some s => if s.isEmpty then defaults.default_exe else s
      | none => defaults.default_exe,
    cflags := match cflags with
      | some l => if l.isEmpty then defaults.default_compile_flags else l
      | none => defaults.default_compile_flags,
    ldflags := match ldflags with
      | some l => if l.isEmpty then defaults.default_link_flags else l
      | none => defaults.default_link_flags }

/-- `CCompiler.compile_args`: the configured compile flags, `-c`, and
the source path. -/
def CCompiler.compile_args (self : CCompiler) (c_fname : String) : List String :=
  self.cflags ++ ["-c", c_fname]

/-- `CCompiler.link_args`: the configured link flags, `-shared`, the
object path, `-o`, and the shared-library path. -/
def CCompiler.link_args (self : CCompiler) (obj_fname dll_fname : String) : List String :=
  self.ldflags ++ ["-shared", obj_fname, "-o", dll_fname]

/-- Modelled from the spec: the `_KernelInfo` bundle built on a
`kernel_info` cache miss; the typed kernel, implemented-data-info and
invoker are external collaborators, so the bundle is represented by the
compiled bridges, the artifacts whose reuse the cache provides. -/
structure KernelInfo where
  c_kernels : List CompiledCKernel
  deriving DecidableEq, Repr

/-- Modelled from the spec: the memo key of `kernel_info` — the
order-independent dtype signature (`arg_to_dtype_set`, a frozenset of
name-to-dtype bindings, built outside this source slice) paired with the
`all_kwargs` argument. -/
abbrev KernelInfoKey := Finset (String × ScalarDType) × Option (List (String × Int))

/-- Lookup in the memo dictionary, keyed by exact signature equality. -/
def lookupCache {K V : Type} [DecidableEq K] : List (K × V) → K → Option V
  | [], _ => none
  | (k, v) :: rest, key => if k = key then some v else lookupCache rest key

/-- The outcome of one memoized `kernel_info` call: the result, the memo
dictionary afterwards, and how many times the underlying build pipeline
ran during the call. -/
structure MemoOutcome (K V : Type) where
  result : Except BridgeError V
  cache : List (K × V)
  builds : Nat
  deriving Repr

/-- Modelled from the spec: the `@memoize_method` decorator (from
`pytools`, outside this source slice) on `CKernelExecutor.kernel_info`.
A hit returns the cached bundle without running the build; a miss runs
the build and stores the result; a build that raises stores nothing, so
the same key retries the full build next time. -/
def memoized_kernel_info {K V : Type} [DecidableEq K]
    (build : K → Except BridgeError V) (cache : List (K × V)) (key : K) :
    MemoOutcome K V :=
  match lookupCache cache key with
  | some v => ⟨.ok v, cache, 0⟩
  | none =>
    match build key with
    | .ok v => ⟨.ok v, (key, v) :: cache, 1⟩
    | .error e => ⟨.error e, cache, 1⟩

/-- Whether a construction failure is the identifiable
`ValueError('unhandled type for arg %r')` of `_visit_func_decl`. -/
def isUnhandledArgShapeError : BridgeError → Bool
  | .unhandledArgValueError _ => true
  | _ => false

/-- A sample memo key: dtype signature binding `a` to `float32`, no
keyword signature. -/
def keyF32 : KernelInfoKey := ({("a", .float32)}, none)

/-- A sample memo key differing from `keyF32` only in the dtype bound to
`a`. -/
def keyF64 : KernelInfoKey := ({("a", .float64)}, none)

/-- A sample build pipeline that always succeeds with an empty bundle. -/
def sampleBuild : KernelInfoKey → Except BridgeError KernelInfo :=
  fun _ => .ok ⟨[]⟩

/-- A sample build pipeline that always raises a hard construction
error. -/
def failingBuild : KernelInfoKey → Except BridgeError KernelInfo :=
  fun _ => .error (.unhandledRestypeValueError "int")

/-- C1 (code bug): for a bridge with one pointer-to-float32 parameter,
invoking it with a zero-size float32 array does not substitute a float32
zero scalar: `__call__` evaluates `arg_t(0.0)` where `arg_t` is
`POINTER(c_float)`, and a ctypes pointer type is constructible only from
an instance of its base type, so a `TypeError` is raised and the native
function is never invoked. -/
theorem zero_size_array_marshalling_typeerror :
    (CompiledCKernel.init "loopy_kernel"
        ⟨"void", [.restrictPointer (.pod .float32 "a")]⟩).map
      (fun k => k.call [.ndarray .float32 0])
    = .ok (.error (.typeError "expected instance of base type")) := by
  rfl

/-- C2: a declaration with ordered parameters
`[(a, float32, restrict pointer), (n, int32, const value)]` produces the
native signature `[POINTER(c_float), c_int]`, with the same arity and
order, and a non-array argument for `n` is constructed as the native
scalar type directly from its value. -/
theorem signature_fidelity (a n kname : String) (m : Int) :
    CompiledCKernel.init kname
        ⟨"void", [.restrictPointer (.pod .float32 a), .const (.pod .int32 n)]⟩
      = .ok { name := kname,
              arg_info := [(a, .pointer (.scalar "c_float")), (n, .scalar "c_int")],
              restype := none,
              argtypes := [.pointer (.scalar "c_float"), .scalar "c_int"] } ∧
    ({ name := kname,
       arg_info := [(a, .pointer (.scalar "c_float")), (n, .scalar "c_int")],
       restype := none,
       argtypes := [.pointer (.scalar "c_float"), .scalar "c_int"] } :
        CompiledCKernel).call [.ndarray .float32 4, .pyInt m]
      = .ok [.pointerView (.pointer (.scalar "c_float")) .float32 4,
             .scalar "c_int" (m : ℚ)] :=
  ⟨rfl, rfl⟩

/-- C8: `compile_args` is the configured compile flags followed by `-c`
and the source path; `link_args` is the configured link flags followed by
`-shared`, the object path, `-o` and the library path; and each is a pure
function of the respective flag configuration and its path inputs
alone. -/
theorem compile_and_link_args (c : CCompiler) (src obj dll : String) :
    c.compile_args src = c.cflags ++ ["-c", src] ∧
    c.link_args obj dll = c.ldflags ++ ["-shared", obj, "-o", dll] ∧
    (∀ c' : CCompiler, c'.cflags = c.cflags →
      c'.compile_args src = c.compile_args src) ∧
    (∀ c' : CCompiler, c'.ldflags = c.ldflags →
      c'.link_args obj dll = c.link_args obj dll) := by
  refine ⟨rfl, rfl, ?_, ?_⟩
  · intro c' h
    simp [CCompiler.compile_args, h]
  · intro c' h
    simp [CCompiler.link_args, h]

/-- C8 witness: the argv built for the default gcc configuration. -/
theorem compile_and_link_args_witness :
    (⟨"gcc", ["-std=c99", "-g", "-O3", "-fPIC"], ["-shared"]⟩ : CCompiler).compile_args
        "code.c"
      = ["-std=c99", "-g", "-O3", "-fPIC"] ++ ["-c", "code.c"] :=
  (compile_and_link_args ⟨"gcc", ["-std=c99", "-g", "-O3", "-fPIC"], ["-shared"]⟩
    "code.c" "code.o" "code.so").1

/-- Marshalling over `zip` ignores arguments beyond the argtype list:
appending extra arguments after as many arguments as there are argtypes
changes nothing. -/
theorem marshalArgs_append (extra : List PyArg) :
    ∀ (args : List PyArg) (ts : List CTypesType), args.length = ts.length →
      marshalArgs (args ++ extra) ts = marshalArgs args ts
  | [], [], _ => by cases extra <;> rfl
  | [], _ :: _, h => by simp at h
  | _ :: _, [], h => by simp at h
  | a :: args, t :: ts, h => by
    simp only [List.cons_append, marshalArgs, List.append_eq]
    rw [marshalArgs_append extra args ts (by simpa using h)]

/-- C9: surplus positional arguments beyond the fixed native parameter
list are silently dropped by `zip(args, self._fn.argtypes)`: only the
first n arguments are marshalled and passed, and no error is raised for
the surplus. -/
theorem surplus_args_dropped (k : CompiledCKernel) (args extra : List PyArg)
    (h : args.length = k.argtypes.length) :
    k.call (args ++ extra) = k.call args :=
  marshalArgs_append extra args k.argtypes h

/-- C9 witness: a one-parameter bridge called with three arguments
behaves as if called with the first one. -/
theorem surplus_args_dropped_witness :
    [PyArg.pyInt 1].length
        = ({ name := "f", arg_info := [("n", .scalar "c_int")], restype := none,
             argtypes := [.scalar "c_int"] } : CompiledCKernel).argtypes.length ∧
    ({ name := "f", arg_info := [("n", .scalar "c_int")], restype := none,
       argtypes := [.scalar "c_int"] } : CompiledCKernel).call
        [.pyInt 1, .pyInt 2, .pyInt 3]
      = ({ name := "f", arg_info := [("n", .scalar "c_int")], restype := none,
           argtypes := [.scalar "c_int"] } : CompiledCKernel).call [.pyInt 1] :=
  ⟨rfl,
    surplus_args_dropped
      { name := "f", arg_info := [("n", .scalar "c_int")], restype := none,
        argtypes := [.scalar "c_int"] }
      [.pyInt 1] [.pyInt 2, .pyInt 3] rfl⟩

/-- C10: an explicitly supplied empty flag list is falsy in
`cflags or default_compile_flags` (resp. `ldflags or default_link_flags`),
so the constructor falls back to the profile defaults, and no constructor
input yields an empty compile- or link-flag list for either the C or the
C++ profile. -/
theorem empty_flag_lists_replaced (cc : Option String)
    (cf ld : Option (List String)) :
    (CCompiler.init ccompilerDefaults cc (some []) ld).cflags
        = ccompilerDefaults.default_compile_flags ∧
    (CCompiler.init ccompilerDefaults cc cf (some [])).ldflags
        = ccompilerDefaults.default_link_flags ∧
    (CCompiler.init cppCompilerDefaults cc (some []) ld).cflags
        = cppCompilerDefaults.default_compile_flags ∧
    (CCompiler.init ccompilerDefaults cc cf ld).cflags ≠ [] ∧
    (CCompiler.init ccompilerDefaults cc cf ld).ldflags ≠ [] ∧
    (CCompiler.init cppCompilerDefaults cc cf ld).cflags ≠ [] ∧
    (CCompiler.init cppCompilerDefaults cc cf ld).ldflags ≠ [] := by
  have auxc : ∀ d : CompilerDefaults, d.default_compile_flags ≠ [] →
      (CCompiler.init d cc cf ld).cflags ≠ [] := by
    intro d hd
    rcases cf with _ | l
    · exact hd
    · rcases l with _ | ⟨x, xs⟩
      · exact hd
      · exact List.cons_ne_nil x xs
  have auxl : ∀ d : CompilerDefaults, d.default_link_flags ≠ [] →
      (CCompiler.init d cc cf ld).ldflags ≠ [] := by
    intro d hd
    rcases ld with _ | l
    · exact hd
    · rcases l with _ | ⟨x, xs⟩
      · exact hd
      · exact List.cons_ne_nil x xs
  exact ⟨rfl, rfl, rfl, auxc _ (by decide), auxl _ (by decide),
    auxc _ (by decide), auxl _ (by decide)⟩

/-- C10 witness: constructing with an explicit empty compile-flag list
yields the default gcc flags. -/
theorem empty_flag_lists_replaced_witness :
    (CCompiler.init ccompilerDefaults none (some []) none).cflags
      = ccompilerDefaults.default_compile_flags :=
  (empty_flag_lists_replaced none (some []) none).1

/-- C3 counterexample: the parameter shape `Const(Const(POD(int32, n)))`
is not one of the supported forms, yet classification does not fail with
the identifiable `ValueError('unhandled type for arg %r')`: `_visit_const`
treats the inner `Const` as a `POD`, and reading its missing `dtype`
raises a bare `AttributeError` instead. -/
theorem const_const_not_unhandled_shape :
    classifyArg (.const (.const (.pod .int32 "n")))
        = .error (.attributeError "dtype") ∧
    isUnhandledArgShapeError (.attributeError "dtype") = false :=
  ⟨rfl, rfl⟩

/-- C3 (amended): a restrict pointer around a plain scalar is a pointer
parameter, a const around such a restrict pointer is a pointer parameter,
a const around a plain scalar is a value parameter, and every other shape
is a hard construction error, never silent mis-marshalling; the error is
the identifiable `ValueError('unhandled type for arg %r')` exactly when
the outermost wrapper is neither const nor restrict pointer, while a
const or restrict pointer around an unsupported inner declarator fails
with a bare `AttributeError` instead.  The clauses cover every declarator
shape: an outermost `pod` or `otherDecl`; a `restrictPointer` around a
`pod` or around any non-`pod`; and a `const` around a `pod`, around a
`restrictPointer` around a `pod` or any non-`pod`, or around any other
non-`pod`. -/
theorem classify_arg_amended :
    (∀ d nm, classifyArg (.restrictPointer (.pod d nm))
        = .ok (nm, _dtype_to_ctype d true)) ∧
    (∀ d nm, classifyArg (.const (.restrictPointer (.pod d nm)))
        = .ok (nm, _dtype_to_ctype d true)) ∧
    (∀ d nm, classifyArg (.const (.pod d nm))
        = .ok (nm, _dtype_to_ctype d false)) ∧
    (∀ d nm, classifyArg (.pod d nm)
        = .error (.unhandledArgValueError (.pod d nm))) ∧
    (∀ nm, classifyArg (.otherDecl nm)
        = .error (.unhandledArgValueError (.otherDecl nm))) ∧
    (∀ s, podDtypeName? s = none →
      classifyArg (.restrictPointer s) = .error (.attributeError "dtype")) ∧
    (∀ s, podDtypeName? s = none → (∀ t, s ≠ CDeclArg.restrictPointer t) →
      classifyArg (.const s) = .error (.attributeError "dtype")) ∧
    (∀ s, podDtypeName? s = none →
      classifyArg (.const (.restrictPointer s))
        = .error (.attributeError "dtype")) := by
  refine ⟨fun d nm => rfl, fun d nm => rfl, fun d nm => rfl, fun d nm => rfl,
    fun nm => rfl, ?_, ?_, ?_⟩
  · intro s hs
    simp [classifyArg, _visit_pointer, subdecl?, hs]
  · intro s hs hnrp
    cases s with
    | pod d nm => simp [podDtypeName?] at hs
    | restrictPointer t => exact absurd rfl (hnrp t)
    | const t => rfl
    | otherDecl nm => rfl
  · intro s hs
    simp [classifyArg, _visit_const, _visit_pointer, subdecl?, hs]

/-- C3 witness: a const around an unsupported inner declarator is a hard
error, though not the identifiable unhandled-shape one. -/
theorem classify_arg_amended_witness :
    podDtypeName? (CDeclArg.otherDecl "p") = none ∧
    classifyArg (.const (.otherDecl "p")) = .error (.attributeError "dtype") :=
  ⟨rfl, classify_arg_amended.2.2.2.2.2.2.1 (.otherDecl "p") rfl
    (fun _ h => nomatch h)⟩

/-- C4: with the argument declarators all classifiable, bridge
construction fails iff the declared return-type name differs from
`void`, and when it is `void` construction succeeds and records the
ctypes restype `None`. -/
theorem restype_gate (name : String) (decl : CFuncDecl)
    (info : List (String × CTypesType))
    (hargs : _visit_func_decl decl.arg_decls = .ok info) :
    ((∃ e, CompiledCKernel.init name decl = .error e) ↔ decl.typename ≠ "void") ∧
    (decl.typename = "void" →
      CompiledCKernel.init name decl
        = .ok { name := name, arg_info := info, restype := none,
                argtypes := info.map Prod.snd }) := by
  have hinit : CompiledCKernel.init name decl
      = if decl.typename = "void" then
          .ok { name := name, arg_info := info, restype := none,
                argtypes := info.map Prod.snd }
        else .error (.unhandledRestypeValueError decl.typename) := by
    unfold CompiledCKernel.init
    rw [hargs]
  by_cases h : decl.typename = "void"
  · constructor
    · constructor
      · rintro ⟨e, he⟩
        rw [hinit, if_pos h] at he
        exact absurd he (by simp)
      · intro hne
        exact absurd h hne
    · intro _
      rw [hinit, if_pos h]
  · constructor
    · constructor
      · intro _
        exact h
      · intro _
        rw [hinit, if_neg h]
        exact ⟨_, rfl⟩
    · intro hv
      exact absurd hv h

/-- C4 witness: a declaration returning `int` is rejected, one returning
`void` is accepted with restype `None`. -/
theorem restype_gate_witness :
    _visit_func_decl ([] : List CDeclArg) = .ok [] ∧
    (∃ e, CompiledCKernel.init "f" ⟨"int", []⟩ = .error e) ∧
    CompiledCKernel.init "f" ⟨"void", []⟩
      = .ok { name := "f", arg_info := [], restype := none, argtypes := [] } :=
  ⟨rfl,
    (restype_gate "f" ⟨"int", []⟩ [] rfl).1.mpr (by decide),
    (restype_gate "f" ⟨"void", []⟩ [] rfl).2 rfl⟩

/-- C5: `kernel_info` is memoized by the signature-pair key: starting
from an empty memo, a second call with the same key returns the very
bundle built by the first call without running the pipeline again, while
a call whose key differs (e.g. only in one argument's dtype) runs a
distinct build. -/
theorem kernel_info_memoization
    (build : KernelInfoKey → Except BridgeError KernelInfo)
    (k k' : KernelInfoKey) (v : KernelInfo)
    (hk : build k = .ok v) (hne : k ≠ k') :
    (memoized_kernel_info build [] k).result = .ok v ∧
    (memoized_kernel_info build [] k).builds = 1 ∧
    (memoized_kernel_info build
        (memoized_kernel_info build [] k).cache k).result = .ok v ∧
    (memoized_kernel_info build
        (memoized_kernel_info build [] k).cache k).builds = 0 ∧
    (memoized_kernel_info build
        (memoized_kernel_info build [] k).cache k').builds = 1 := by
  have hc : (memoized_kernel_info build [] k).cache = [(k, v)] := by
    simp [memoized_kernel_info, lookupCache, hk]
  refine ⟨?_, ?_, ?_, ?_, ?_⟩
  · simp [memoized_kernel_info, lookupCache, hk]
  · simp [memoized_kernel_info, lookupCache, hk]
  · rw [hc]
    simp [memoized_kernel_info, lookupCache]
  · rw [hc]
    simp [memoized_kernel_info, lookupCache]
  · rw [hc]
    cases hb : build k' <;>
      simp [memoized_kernel_info, lookupCache, hne, hb]

/-- C5 witness: two concrete dtype signatures differing only in the
dtype bound to `a`. -/
theorem kernel_info_memoization_witness :
    sampleBuild keyF32 = .ok ⟨[]⟩ ∧ keyF32 ≠ keyF64 ∧
    (memoized_kernel_info sampleBuild [] keyF32).builds = 1 ∧
    (memoized_kernel_info sampleBuild
        (memoized_kernel_info sampleBuild [] keyF32).cache keyF32).builds = 0 ∧
    (memoized_kernel_info sampleBuild
        (memoized_kernel_info sampleBuild [] keyF32).cache keyF64).builds = 1 :=
  ⟨rfl, by decide,
    (kernel_info_memoization sampleBuild keyF32 keyF64 ⟨[]⟩ rfl (by decide)).2.1,
    (kernel_info_memoization sampleBuild keyF32 keyF64 ⟨[]⟩ rfl (by decide)).2.2.2.1,
    (kernel_info_memoization sampleBuild keyF32 keyF64 ⟨[]⟩ rfl (by decide)).2.2.2.2⟩

/-- C6: a hard construction error raised while building `kernel_info`
stores nothing: the memo dictionary is unchanged, and a subsequent call
with the same signature runs the full build again instead of observing a
cached failed or partial result. -/
theorem kernel_info_error_not_cached
    (build : KernelInfoKey → Except BridgeError KernelInfo)
    (cache : List (KernelInfoKey × KernelInfo)) (k : KernelInfoKey)
    (e : BridgeError)
    (hmiss : lookupCache cache k = none) (hk : build k = .error e) :
    (memoized_kernel_info build cache k).result = .error e ∧
    (memoized_kernel_info build cache k).cache = cache ∧
    (memoized_kernel_info build
        (memoized_kernel_info build cache k).cache k).builds = 1 := by
  refine ⟨?_, ?_, ?_⟩ <;> simp [memoized_kernel_info, hmiss, hk]

/-- C6 witness: a failing build leaves the empty memo empty and the
retry builds again. -/
theorem kernel_info_error_not_cached_witness :
    lookupCache ([] : List (KernelInfoKey × KernelInfo)) keyF32 = none ∧
    failingBuild keyF32 = .error (.unhandledRestypeValueError "int") ∧
    (memoized_kernel_info failingBuild [] keyF32).cache = [] ∧
    (memoized_kernel_info failingBuild
        (memoized_kernel_info failingBuild [] keyF32).cache keyF32).builds = 1 :=
  ⟨rfl, rfl,
    (kernel_info_error_not_cached failingBuild [] keyF32
      (.unhandledRestypeValueError "int") rfl rfl).2.1,
    (kernel_info_error_not_cached failingBuild [] keyF32
      (.unhandledRestypeValueError "int") rfl rfl).2.2⟩

/-- C7: for every successfully constructed bridge, `argtypes` is fixed
once at construction from the extracted descriptors, with exactly their
arity and order, and every invocation marshals against that fixed
construction-time signature (the embedding of `__call__` takes the
bridge immutably: the method assigns no attribute of it). -/
theorem fixed_native_signature (name : String) (decl : CFuncDecl)
    (k : CompiledCKernel)
    (h : CompiledCKernel.init name decl = .ok k) :
    _visit_func_decl decl.arg_decls = .ok k.arg_info ∧
    k.argtypes = k.arg_info.map Prod.snd ∧
    k.argtypes.length = k.arg_info.length ∧
    ∀ args, k.call args = marshalArgs args (k.arg_info.map Prod.snd) := by
  cases hv : _visit_func_decl decl.arg_decls with
  | error e =>
    have hinit : CompiledCKernel.init name decl = .error e := by
      unfold CompiledCKernel.init
      rw [hv]
    rw [hinit] at h
    exact absurd h (by simp)
  | ok info =>
    have hinit : CompiledCKernel.init name decl
        = if decl.typename = "void" then
            .ok { name := name, arg_info := info, restype := none,
                  argtypes := info.map Prod.snd }
          else .error (.unhandledRestypeValueError decl.typename) := by
      unfold CompiledCKernel.init
      rw [hv]
    rw [hinit] at h
    by_cases ht : decl.typename = "void"
    · rw [if_pos ht] at h
      injection h with h'
      subst h'
      exact ⟨rfl, rfl, by simp, fun args => rfl⟩
    · rw [if_neg ht] at h
      exact absurd h (by simp)

/-- C7 witness: a concrete one-parameter bridge calls through the
signature extracted at construction. -/
theorem fixed_native_signature_witness :
    CompiledCKernel.init "f" ⟨"void", [.const (.pod .int32 "n")]⟩
      = .ok { name := "f", arg_info := [("n", .scalar "c_int")],
              restype := none, argtypes := [.scalar "c_int"] } ∧
    ({ name := "f", arg_info := [("n", .scalar "c_int")],
       restype := none, argtypes := [.scalar "c_int"] } : CompiledCKernel).call
        [.pyInt 3]
      = marshalArgs [.pyInt 3] ([("n", CTypesType.scalar "c_int")].map Prod.snd) :=
  ⟨rfl,
    (fixed_native_signature "f" ⟨"void", [.const (.pod .int32 "n")]⟩
      { name := "f", arg_info := [("n", .scalar "c_int")],
        restype := none, argtypes := [.scalar "c_int"] } rfl).2.2.2 [.pyInt 3]⟩

end CExec
